import Mathlib

/-!
Verification development for the LabAuto service (`api/index.py`).

The Python source is shallowly embedded below.  Pure text manipulation
(question splitting, AI-response cleanup, truncation) is translated
directly; the external collaborators (the Gemini backend, `json.loads`,
`base64.b64decode`, the PDF/DOCX extractors, and the semantics of
`exec` on an arbitrary snippet) are parameters, collected in a `Collab`
record, exactly as the specification declares them opaque.  Matplotlib's
process-global state is modelled explicitly as a `PltState` value that
every call threads, and the docx document is modelled as the list of
blocks (`paragraph` / `picture` / `pageBreak`) that `python-docx` calls
append; serialising that list to `.docx` bytes (`doc.save`) is the
opaque document-formatting collaborator.
-/

/-! ### Python string primitives -/

/-- Python's `\s` character class (ASCII range), as used by `str.strip`
and the regexes in the source. -/
def pySpace (c : Char) : Bool :=
  c = ' ' || c = '\t' || c = '\n' || c = '\r' || c = Char.ofNat 11 || c = Char.ofNat 12

/-- Python slicing `s[:n]`: the first `n` characters. -/
def pyTake (s : String) (n : Nat) : String := ⟨s.data.take n⟩

/-- Python `str.strip()`: drop leading and trailing whitespace. -/
def pyStrip (s : String) : String :=
  ⟨((s.data.dropWhile pySpace).reverse.dropWhile pySpace).reverse⟩

/-- Helper for `splitLines`: accumulates the current line (reversed). -/
def splitLinesAux : List Char → List Char → List String
  | acc, [] => [⟨acc.reverse⟩]
  | acc, c :: cs =>
    if c = '\n' then ⟨acc.reverse⟩ :: splitLinesAux [] cs
    else splitLinesAux (c :: acc) cs

/-- Python `text.split('\n')`: split on every newline, keeping empty
pieces; the empty string yields `[""]`. -/
def splitLines (s : String) : List String :=
  splitLinesAux [] s.data

/-- Python `'\n'.join(lines)`. -/
def joinNL : List String → String
  | [] => ""
  | [s] => s
  | s :: t :: ts => s ++ "\n" ++ joinNL (t :: ts)

/-! ### Question Splitter (`split_questions`, source lines 63-93) -/

/-- The single heading regex of the source,
`re.compile(r'^\s*(\d+)\s*[\.\)]\s*')`, tested with `.match` (anchored
at the line start): optional whitespace, one or more digits, optional
whitespace, then a literal `.` or `)`.  The trailing `\s*` always
matches and is irrelevant to whether the line matches. -/
def isQuestionStart (line : String) : Bool :=
  let cs := line.data.dropWhile pySpace
  let ds := cs.takeWhile Char.isDigit
  let rest := (cs.dropWhile Char.isDigit).dropWhile pySpace
  !ds.isEmpty &&
    match rest with
    | c :: _ => c = '.' || c = ')'
    | [] => false

/-- One iteration of the `for line in lines` loop of `split_questions`:
state is `(questions, current_q)`. -/
def qStep (acc : List String × List String) (line : String) :
    List String × List String :=
  let (questions, current_q) := acc
  if isQuestionStart line && !current_q.isEmpty then
    let q_text := pyStrip (joinNL current_q)
    (if q_text.length > 20 then questions ++ [q_text] else questions, [line])
  else
    (questions, current_q ++ [line])

/-- The post-loop step of `split_questions` ("Don't forget the last
question", source lines 84-87). -/
def finishQ : List String × List String → List String
  | (questions, current_q) =>
    if current_q.isEmpty then questions
    else
      let q_text := pyStrip (joinNL current_q)
      if q_text.length > 20 then questions ++ [q_text] else questions

/-- Function `split_questions` (source lines 63-93): split input text into
individual questions based on the numbering pattern; fragments of
stripped length at most 20 are dropped; if nothing qualifies, return
the whole stripped text as a single question. -/
def split_questions (text : String) : List String :=
  let lines := splitLines text
  let questions := finishQ (lines.foldl qStep ([], []))
  if questions.isEmpty then [pyStrip text] else questions

/-! ### Solution Generator parsing helpers (`call_gemini_single`, source lines 96-183) -/

/-- The three text fields returned per question by the Solution
Generator. -/
structure SolutionRecord where
  matlab_code : String
  python_plotting_code : String
  conclusion : String
deriving DecidableEq

/-- Model of `re.sub(r'^```(?:json)?\s*', '', text)` (source line 133): remove a
leading code fence, an optional `json` tag, and following whitespace. -/
def stripLeadingFence (s : String) : String :=
  let bt : Char := Char.ofNat 96
  let cs := s.data
  if cs.take 3 = [bt, bt, bt] then
    let rest := cs.drop 3
    let rest := if rest.take 4 = ['j', 's', 'o', 'n'] then rest.drop 4 else rest
    ⟨rest.dropWhile pySpace⟩
  else s

/-- Model of `re.sub(r'\s*```$', '', text)` (source line 134): remove a trailing
code fence and the whitespace immediately before it.  (The input has
already been stripped, so the `$` before-final-newline subtlety cannot
arise.) -/
def stripTrailingFence (s : String) : String :=
  let bt : Char := Char.ofNat 96
  let cs := s.data
  if cs.reverse.take 3 = [bt, bt, bt] then
    ⟨((cs.reverse.drop 3).dropWhile pySpace).reverse⟩
  else s

/-- Model of `re.search(r'\{[\s\S]*\}', text)` (source lines 137-139): the span
from the first `\x7b` to the last `\x7d`, when both exist in that
order. -/
def extractBraces (s : String) : Option String :=
  let l := s.data.dropWhile (· ≠ Char.ofNat 123)
  let r := l.reverse.dropWhile (· ≠ Char.ofNat 125)
  if r.isEmpty then none else some ⟨r.reverse⟩

/-- One pass of `re.sub(r',\s*C', 'C', text)` for a closing character
`C` (source lines 147-148): each comma followed only by whitespace and
then `C` is deleted together with that whitespace. -/
def fixCommaClose (close : Char) : List Char → List Char
  | [] => []
  | c :: rest =>
    if c = ',' then
      match h : rest.dropWhile pySpace with
      | c2 :: rs =>
        if c2 = close then close :: fixCommaClose close rs
        else ',' :: fixCommaClose close rest
      | [] => ',' :: fixCommaClose close rest
    else c :: fixCommaClose close rest
termination_by l => l.length
decreasing_by
  · have h1 : (rest.dropWhile pySpace).length ≤ rest.length :=
      (List.dropWhile_sublist (p := pySpace) (l := rest)).length_le
    rw [h] at h1
    simp at h1 ⊢
    omega
  · simp
  · simp
  · simp

/-- The two trailing-comma fixes of source lines 146-148, in order. -/
def fixTrailingCommas (s : String) : String :=
  ⟨fixCommaClose (Char.ofNat 93) (fixCommaClose (Char.ofNat 125) s.data)⟩

/-- The capture group `[^"]*(?:\\"[^"]*)*` followed by a closing `"`
of the last-resort field regexes (source lines 153-155): the longest
prefix in which every quote is escaped, up to an unescaped closing
quote; `none` when no unescaped quote follows. -/
def scanCapture : List Char → Option (List Char)
  | [] => none
  | '"' :: _ => some []
  | '\\' :: '"' :: rs => (scanCapture rs).map (fun r => '\\' :: '"' :: r)
  | c :: rest => (scanCapture rest).map (fun r => c :: r)

/-- After the quoted key, match `\s*:\s*"` and then the capture. -/
def matchFieldAt (cs : List Char) : Option (List Char) :=
  match cs.dropWhile pySpace with
  | ':' :: r2 =>
    match r2.dropWhile pySpace with
    | '"' :: r4 => scanCapture r4
    | _ => none
  | _ => none

/-- Model of `re.search` for `"key"\s*:\s*"(capture)"`: try every position,
left to right. -/
def findField (key : List Char) : List Char → Option (List Char)
  | [] => none
  | c :: rest =>
    if c = '"' ∧ key.isPrefixOf rest ∧ (rest.drop key.length).head? = some '"' then
      match matchFieldAt (rest.drop (key.length + 1)) with
      | some cap => some cap
      | none => findField key rest
    else findField key rest

/-- Last-resort regex extraction of one field (source lines 153-155). -/
def extractField (key : String) (s : String) : Option String :=
  (findField key.data s.data).map (fun l => ⟨l⟩)

/-- Model of `code.replace('\\n', '\n')` (source lines 169-170), leftmost
non-overlapping. -/
def unescNL : List Char → List Char
  | '\\' :: 'n' :: rest => '\n' :: unescNL rest
  | c :: rest => c :: unescNL rest
  | [] => []

/-- String wrapper for `unescNL`. -/
def unescapeNewlines (s : String) : String := ⟨unescNL s.data⟩

/-- The response-processing pipeline of `call_gemini_single` (source
lines 130-176): strip fences, isolate the brace span, then parse via
the ordered fallback chain (direct JSON parse, parse after removing
trailing commas, per-field regex extraction), apply the per-field
defaults, and unescape `\n` in the two code fields.  `json.loads` is
the opaque parameter `jsonP`; a JSON object is modelled as its list of
string fields, `none` standing for a parse error. -/
def parseAiResponse (jsonP : String → Option (List (String × String)))
    (raw : String) : SolutionRecord :=
  let t0 := pyStrip raw
  let t1 := stripTrailingFence (stripLeadingFence t0)
  let t := match extractBraces t1 with
           | some b => b
           | none => t1
  let result : List (String × String) :=
    match jsonP t with
    | some r => r
    | none =>
      match jsonP (fixTrailingCommas t) with
      | some r => r
      | none =>
        [("matlab_code", (extractField "matlab_code" t).getD "% Code parsing error"),
         ("python_plotting_code", (extractField "python_plotting_code" t).getD ""),
         ("conclusion", (extractField "conclusion" t).getD "Conclusion parsing error")]
  let matlab_code := (result.lookup "matlab_code").getD "% No code generated"
  let python_code := (result.lookup "python_plotting_code").getD ""
  let conclusion := (result.lookup "conclusion").getD "No conclusion."
  ⟨unescapeNewlines matlab_code, unescapeNewlines python_code, conclusion⟩

/-! ### Figure Renderer model (`configure_matlab_style`, `generate_graph`, source lines 24-41 and 186-238) -/

/-- The matplotlib rcParams the source touches (source lines 26-41),
with fractional values as rationals. -/
structure RcParams where
  fontFamily : String
  fontSansSerif : List String
  fontSize : Nat
  axesLinewidthTenths : Nat
  xtickDirection : String
  ytickDirection : String
  xtickTop : Bool
  ytickRight : Bool
  gridAlphaTenths : Nat
  gridLinestyle : String
  figureFacecolor : String
  axesFacecolor : String
  propCycle : List String
deriving DecidableEq

/-- The rcParams state `plt.style.use('default')` restores
(matplotlib's built-in defaults). -/
def defaultRc : RcParams :=
  { fontFamily := "sans-serif"
    fontSansSerif := ["DejaVu Sans"]
    fontSize := 10
    axesLinewidthTenths := 8
    xtickDirection := "out"
    ytickDirection := "out"
    xtickTop := false
    ytickRight := false
    gridAlphaTenths := 10
    gridLinestyle := "-"
    figureFacecolor := "white"
    axesFacecolor := "white"
    propCycle := ["#1f77b4", "#ff7f0e", "#2ca02c", "#d62728", "#9467bd",
                  "#8c564b", "#e377c2", "#7f7f7f", "#bcbd22", "#17becf"] }

/-- The rcParams after `configure_matlab_style` (source lines 24-41):
defaults, then the MATLAB-style overrides. -/
def matlabRc : RcParams :=
  { defaultRc with
    fontFamily := "sans-serif"
    fontSansSerif := ["Helvetica", "Arial", "DejaVu Sans"]
    fontSize := 10
    axesLinewidthTenths := 10
    xtickDirection := "in"
    ytickDirection := "in"
    xtickTop := true
    ytickRight := true
    gridAlphaTenths := 5
    gridLinestyle := ":"
    propCycle := ["#0072BD", "#D95319", "#EDB120", "#7E2F8E", "#77AC30",
                  "#4DBEEE", "#A2142F"] }

/-- Matplotlib's process-global state as the source uses it: the list
of open figures (each figure reduced to the text elements drawn on it,
which is all the source draws besides the snippet's own plotting) and
the current rcParams. -/
structure PltState where
  figures : List (List String)
  rc : RcParams
deriving DecidableEq

/-- Model of `plt.close('all')`. -/
def closeAll (s : PltState) : PltState := { s with figures := [] }

/-- Function `configure_matlab_style` (source lines 24-41): reset the style
and apply the MATLAB-like overrides.  Only rcParams change; open
figures are untouched. -/
def configure_matlab_style (s : PltState) : PltState := { s with rc := matlabRc }

/-- Model of `plt.savefig(..., format='png', ...)` rendering a figure to bytes:
the PNG signature followed by an encoding of the figure's text
elements.  Always non-empty, and injective enough that a placeholder's
message is visible in the bytes. -/
def pngEncode (texts : List String) : List Nat :=
  137 :: 80 :: 78 :: 71 :: ((texts.map String.data).flatten.map Char.toNat)

/-- The semantics of `exec(python_code, exec_globals)` on the snippet:
given the code, the global plotting state and the (empty) output
buffer, either return the updated state and buffer, or raise with a
message together with the state at the raise.  Opaque collaborator. -/
def SnippetSem : Type :=
  String → PltState → List Nat → Except (String × PltState) (PltState × List Nat)

/-- Function `generate_graph` (source lines 186-238): configure the style; on an
empty/short snippet render the "Graph generation pending" placeholder
and close all figures; otherwise close all figures, run the snippet,
re-capture the current figure if the buffer is still empty, and on any
exception render the truncated-error placeholder, closing figures
before and after it.  Returns the PNG bytes and the plotting state
after the call; it never raises. -/
def generate_graph (python_code : String) (sem : SnippetSem) (s0 : PltState) :
    List Nat × PltState :=
  let s := configure_matlab_style s0
  if python_code = "" ∨ (pyStrip python_code).length < 20 then
    let fig := ["Graph generation pending"]
    let s1 := { s with figures := s.figures ++ [fig] }
    (pngEncode fig, closeAll s1)
  else
    match sem python_code (closeAll s) [] with
    | .ok (s', buf) =>
      if buf.isEmpty then
        match s'.figures.getLast? with
        | some fig => (pngEncode fig, s')
        | none => (pngEncode [], { s' with figures := [[]] })
      else (buf, s')
    | .error (e, sErr) =>
      let s1 := closeAll sErr
      let fig := ["Graph Error:\n" ++ pyTake e 120]
      let s2 := { s1 with figures := s1.figures ++ [fig] }
      (pngEncode fig, closeAll s2)

/-! ### External collaborators and the Solution Generator -/

/-- The opaque collaborators of the service, as the specification
scopes them: the environment credential, `base64.b64decode`, the two
file extractors, the Gemini backend (prompt to response text, or a
raised exception's message), `json.loads` on objects with string
fields, and the `exec` semantics for plotting snippets. -/
structure Collab where
  apiKey : Option String
  b64decode : String → Except String (List Nat)
  extract_text_from_pdf : List Nat → Except String String
  extract_text_from_docx : List Nat → Except String String
  aiResponse : String → Except String String
  jsonParse : String → Option (List (String × String))
  snippet : SnippetSem

/-- Function `call_gemini_single` (source lines 96-183).  The credential check
(lines 98-100) sits before the `try` block, so a missing key raises
out of the function (`.error`); everything from the backend call
onward is inside the `try`, whose handler converts any exception into
the degraded record with truncated messages (lines 178-183). -/
def call_gemini_single (c : Collab) (question_text : String) (question_num : Nat) :
    Except String SolutionRecord :=
  match c.apiKey with
  | none => .error "GEMINI_API_KEY environment variable not set"
  | some _ =>
    match c.aiResponse ("Question " ++ toString question_num ++ ": " ++ pyTake question_text 1500) with
    | .error e =>
      .ok ⟨"% Error: " ++ pyTake e 100, "", "Error processing question: " ++ pyTake e 50⟩
    | .ok raw => .ok (parseAiResponse c.jsonParse raw)

/-! ### Document Assembler model (`assemble_document`, source lines 241-311) -/

/-- One `python-docx` run with the font attributes the source sets:
text, bold, RGB colour, point size, font name. -/
structure DocRun where
  text : String
  bold : Bool := false
  color : Option (Nat × Nat × Nat) := none
  size : Option Nat := none
  font : Option String := none
deriving DecidableEq

/-- A docx block-level element as the source produces them:
`add_paragraph` (with its runs), `add_picture` (bytes and display
width in inches), or `add_page_break`. -/
inductive Block
  | paragraph (runs : List DocRun)
  | picture (data : List Nat) (widthInches : Nat)
  | pageBreak
deriving DecidableEq

/-- One entry of `questions_data` (source lines 366-372). -/
structure QItem where
  question_num : Nat
  question : String
  matlab_code : String
  graph_bytes : List Nat
  conclusion : String
deriving DecidableEq

/-- The header section of `assemble_document` (source lines 248-268):
name, roll number and lab label in dark red when non-empty, then a
spacing paragraph. -/
def headerBlocks (student_name roll_number lab_number : String) : List Block :=
  (if student_name ≠ "" then
    [Block.paragraph [{ text := "Name – " ++ student_name, bold := true,
                        color := some (139, 0, 0), size := some 12 }]]
   else []) ++
  (if roll_number ≠ "" then
    [Block.paragraph [{ text := roll_number, color := some (139, 0, 0), size := some 12 }]]
   else []) ++
  (if lab_number ≠ "" then
    [Block.paragraph [{ text := "WCT LAB " ++ lab_number, color := some (139, 0, 0),
                        size := some 12 }]]
   else []) ++
  [Block.paragraph []]

/-- The per-question section of `assemble_document` (source lines
270-302): the numbered question text (truncated to 400 characters) in
red, a spacing paragraph, the MATLAB code line by line in Consolas, a
spacing paragraph, the red "Output:" label, the figure at width 5
inches when the graph bytes are non-empty (Python truthiness of
`bytes`), and a final spacing paragraph.  Note that
`item['conclusion']` is never used. -/
def sectionBlocks (item : QItem) : List Block :=
  [Block.paragraph [{ text := toString item.question_num ++ ")  " ++ pyTake item.question 400,
                      color := some (255, 0, 0), size := some 11 }],
   Block.paragraph []] ++
  (splitLines item.matlab_code).map
    (fun line => Block.paragraph [{ text := line, font := some "Consolas", size := some 10 }]) ++
  [Block.paragraph [],
   Block.paragraph [{ text := "Output:", color := some (255, 0, 0), size := some 11 }]] ++
  (if item.graph_bytes ≠ [] then [Block.picture item.graph_bytes 5] else []) ++
  [Block.paragraph []]

/-- Function `assemble_document` (source lines 241-311) as the list of blocks
appended to the fresh `Document()`: the header, then each item's
section, with `doc.add_page_break()` after every item that is not
equal (Python `!=`, value equality) to the last entry of
`questions_data`.  Serialising the blocks (`doc.save`) is the opaque
docx collaborator, so the claims are stated on the block list. -/
def assemble_document (questions_data : List QItem)
    (student_name roll_number lab_number : String) : List Block :=
  headerBlocks student_name roll_number lab_number ++
  (questions_data.map (fun item =>
    sectionBlocks item ++
      (if questions_data.getLast? = some item then [] else [Block.pageBreak]))).flatten

/-! ### The `/generate` route (source lines 324-385) -/

/-- The parsed JSON request body: absent fields are `none`. -/
structure GenRequest where
  question_text : Option String
  file_data : Option String
  file_type : Option String
  student_name : Option String
  roll_number : Option String
  lab_number : Option String

/-- The HTTP response of `generate`: either the assembled document
(sent as an attachment; serialisation is opaque) or a JSON error with
its status code. -/
inductive GenResponse
  | ok (doc : List Block)
  | err (status : Nat) (msg : String)
deriving DecidableEq

/-- The `for i, q in enumerate(questions, 1)` loop of `generate`
(source lines 358-372): for each question call the Solution Generator,
then the Figure Renderer, collecting `questions_data`; an exception
raised by `call_gemini_single` propagates (`.error`) carrying the
plotting state at the raise. -/
def processQuestions (c : Collab) :
    List String → Nat → PltState → Except (String × PltState) (List QItem × PltState)
  | [], _, s => .ok ([], s)
  | q :: rest, i, s =>
    match call_gemini_single c q i with
    | .error e => .error (e, s)
    | .ok r =>
      let (graph_bytes, s') := generate_graph r.python_plotting_code c.snippet s
      match processQuestions c rest (i + 1) s' with
      | .error es => .error es
      | .ok (items, s'') =>
        .ok (⟨i, q, r.matlab_code, graph_bytes, r.conclusion⟩ :: items, s'')

/-- The POST `/generate` handler (source lines 324-385): read the
fields with empty-string defaults; when a (truthy) file is supplied
and no question text, decode it and run the extractor selected by
`file_type` (an unknown type leaves the text empty); reject with 400
when no text results; split into questions, cap at 4, process each
question, assemble the document.  The enclosing `try` turns any raised
exception into a 500 with the exception's message. -/
def generate (c : Collab) (req : GenRequest) (s : PltState) : GenResponse × PltState :=
  let question_text := req.question_text.getD ""
  let file_type := req.file_type.getD ""
  let student_name := req.student_name.getD ""
  let roll_number := req.roll_number.getD ""
  let lab_number := req.lab_number.getD ""
  let extracted : Except String String :=
    match req.file_data with
    | some fd =>
      if fd ≠ "" ∧ question_text = "" then
        match c.b64decode fd with
        | .error e => .error e
        | .ok fileBytes =>
          if file_type = "pdf" then c.extract_text_from_pdf fileBytes
          else if file_type = "docx" then c.extract_text_from_docx fileBytes
          else .ok question_text
      else .ok question_text
    | none => .ok question_text
  match extracted with
  | .error e => (.err 500 e, s)
  | .ok qt =>
    if qt = "" then (.err 400 "No question text provided", s)
    else
      let questions := split_questions qt
      let questions := if questions.length > 4 then questions.take 4 else questions
      match processQuestions c questions 1 s with
      | .error (e, s') => (.err 500 e, s')
      | .ok (items, s') =>
        (.ok (assemble_document items student_name roll_number lab_number), s')

/-! ### Derived definitions used by the lemmas, claims and witnesses -/

/-- The stripped fragment a block of lines contributes. -/
def fragOf (B : List String) : String := pyStrip (joinNL B)

/-- A block as the Splitter's heuristic expects it: non-empty, its
first line matches the heading pattern, no later line does. -/
def GoodBlock (B : List String) : Prop :=
  ∃ b bs, B = b :: bs ∧ isQuestionStart b = true ∧ ∀ l ∈ bs, isQuestionStart l = false

/-- Whether a block is a page break. -/
def isPageBreak : Block → Bool
  | Block.pageBreak => true
  | _ => false

/-- Number of page breaks in a block list. -/
def countBreaks (blocks : List Block) : Nat := blocks.countP isPageBreak

/-- The run texts of a block. -/
def runTexts : Block → List String
  | Block.paragraph runs => runs.map DocRun.text
  | _ => []

/-- All run texts of a document, in order. -/
def docRunTexts (blocks : List Block) : List String := (blocks.map runTexts).flatten

/-- Whether a document embeds any picture. -/
def hasPicture (blocks : List Block) : Bool :=
  blocks.any fun b => match b with
    | Block.picture _ _ => true
    | _ => false

/-- Boolean substring test on character lists: does `pat` occur
contiguously in `s`? -/
def containsSub (pat : List Char) : List Char → Bool
  | [] => pat.isEmpty
  | c :: rest => pat.isPrefixOf (c :: rest) || containsSub pat rest

/-- A concrete tuple whose conclusion text occurs in no other field
and whose graph bytes are empty. -/
def c2Item : QItem :=
  { question_num := 1
    question := "Sketch the unit step signal"
    matlab_code := "x = 1"
    graph_bytes := []
    conclusion := "ZZZCONCLUSION" }

/-- A concrete tuple used to exhibit the duplicate-tuple page-break
behaviour. -/
def c5Item : QItem :=
  { question_num := 1
    question := "Plot the ramp signal for n from 0 to 10"
    matlab_code := "n = 0:10"
    graph_bytes := [137]
    conclusion := "The ramp grows linearly." }

/-- Distinct tuples for the C5 witness, ordinals 1, 2, 3. -/
def c5A : QItem := { c5Item with question_num := 1 }

/-- Second witness tuple. -/
def c5B : QItem := { c5Item with question_num := 2 }

/-- Third witness tuple. -/
def c5C : QItem := { c5Item with question_num := 3 }

/-- The plotting state with no open figures and the MATLAB style
applied — what the snippet sees when it starts executing. -/
def freshMatlabState : PltState := { figures := [], rc := matlabRc }

/-- An initial plotting state used by concrete instances. -/
def s0 : PltState := { figures := [], rc := defaultRc }

/-- The success-path snippet semantics for the C3 counterexample: it
opens one figure and writes PNG bytes to the buffer. -/
def semLeavesFigure : SnippetSem :=
  fun _ s _ => .ok ({ s with figures := s.figures ++ [["residual curve"]] }, [137, 80, 78, 71, 1])

/-- A concrete collaborator bundle with the credential configured. -/
def cW : Collab :=
  { apiKey := some "test-key"
    b64decode := fun _ => .ok []
    extract_text_from_pdf := fun _ => .ok ""
    extract_text_from_docx := fun _ => .ok ""
    aiResponse := fun _ => .ok ""
    jsonParse := fun _ => none
    snippet := fun _ s b => .ok (s, b) }

/-- The same collaborators with the credential absent. -/
def cNoKey : Collab := { cW with apiKey := none }

/-- A request carrying only raw question text. -/
def reqText : GenRequest :=
  ⟨some "please analyse the sampling theorem question", none, none, none, none, none⟩

/-! ### Lemmas: `splitLines` / `joinNL` round trips -/

/-- Rebuilding a string from its character data. -/
theorem mk_data (s : String) : (⟨s.data⟩ : String) = s := rfl

/-- Two strings with the same character data are equal. -/
theorem string_eq_of_data {a b : String} (h : a.data = b.data) : a = b := by
  have h2 := congrArg String.mk h
  rwa [mk_data, mk_data] at h2

/-- Character data of an appended string. -/
theorem data_append (a b : String) : (a ++ b).data = a.data ++ b.data :=
  String.data_append a b

/-- Character data of the newline string. -/
theorem data_newline : ("\n" : String).data = ['\n'] := rfl

/-- Helper `splitLinesAux` always yields at least one line. -/
theorem splitLinesAux_ne_nil (cs : List Char) : ∀ acc, splitLinesAux acc cs ≠ [] := by
  induction cs with
  | nil => intro acc; simp [splitLinesAux]
  | cons c cs ih =>
    intro acc
    by_cases h : c = '\n' <;> simp [splitLinesAux, h, ih]

/-- Function `splitLines` never returns the empty list. -/
theorem splitLines_ne_nil (s : String) : splitLines s ≠ [] :=
  splitLinesAux_ne_nil s.data []

/-- Unfolding `joinNL` on a list with at least two entries. -/
theorem joinNL_cons_of_ne_nil (s : String) {ls : List String} (h : ls ≠ []) :
    joinNL (s :: ls) = s ++ "\n" ++ joinNL ls := by
  cases ls with
  | nil => exact absurd rfl h
  | cons t ts => rfl

/-- Joining undoes splitting, at the `splitLinesAux` level. -/
theorem joinNL_splitLinesAux (cs : List Char) : ∀ acc,
    joinNL (splitLinesAux acc cs) = ⟨acc.reverse ++ cs⟩ := by
  induction cs with
  | nil => intro acc; simp [splitLinesAux, joinNL]
  | cons c cs ih =>
    intro acc
    by_cases h : c = '\n'
    · subst h
      rw [show splitLinesAux acc ('\n' :: cs) = ⟨acc.reverse⟩ :: splitLinesAux [] cs by
            simp [splitLinesAux]]
      rw [joinNL_cons_of_ne_nil _ (splitLinesAux_ne_nil cs []), ih]
      apply string_eq_of_data
      simp [data_append, data_newline]
    · rw [show splitLinesAux acc (c :: cs) = splitLinesAux (c :: acc) cs by
            simp [splitLinesAux, h]]
      rw [ih]
      apply string_eq_of_data
      simp

/-- Joining the split lines gives back the text. -/
theorem joinNL_splitLines (s : String) : joinNL (splitLines s) = s := by
  rw [splitLines, joinNL_splitLinesAux]
  rfl

/-- Processing a newline-free prefix just accumulates it. -/
theorem splitLinesAux_append_noNL {l : List Char} (h : '\n' ∉ l) (acc cs : List Char) :
    splitLinesAux acc (l ++ cs) = splitLinesAux (l.reverse ++ acc) cs := by
  induction l generalizing acc with
  | nil => simp
  | cons a l ih =>
    have ha : a ≠ '\n' := by rintro rfl; simp at h
    have h' : '\n' ∉ l := by intro hm; exact h (List.mem_cons_of_mem _ hm)
    rw [List.cons_append,
        show splitLinesAux acc (a :: (l ++ cs)) = splitLinesAux (a :: acc) (l ++ cs) by
          simp [splitLinesAux, ha]]
    rw [ih h']
    congr 1
    simp

/-- Splitting undoes joining on newline-free lines. -/
theorem splitLines_joinNL : ∀ ls : List String, ls ≠ [] →
    (∀ s ∈ ls, '\n' ∉ s.data) → splitLines (joinNL ls) = ls
  | [], h, _ => absurd rfl h
  | [s], _, h2 => by
    have hs : '\n' ∉ s.data := h2 s (by simp)
    show splitLinesAux [] s.data = [s]
    rw [show s.data = s.data ++ [] by simp, splitLinesAux_append_noNL hs]
    simp [splitLinesAux, mk_data]
  | s :: t :: ts, _, h2 => by
    have hs : '\n' ∉ s.data := h2 s (by simp)
    rw [joinNL]
    show splitLinesAux [] (s ++ "\n" ++ joinNL (t :: ts)).data = s :: t :: ts
    rw [data_append, data_append, data_newline, List.append_assoc,
        splitLinesAux_append_noNL hs]
    rw [show ∀ X acc, splitLinesAux acc (['\n'] ++ X) = ⟨acc.reverse⟩ :: splitLinesAux [] X by
          intro X acc; simp [splitLinesAux]]
    have hhead : (⟨(s.data.reverse ++ []).reverse⟩ : String) = s := by
      apply string_eq_of_data; simp
    rw [hhead]
    have := splitLines_joinNL (t :: ts) (by simp)
      (fun x hx => h2 x (List.mem_cons_of_mem _ hx))
    rw [splitLines] at this
    rw [this]

/-! ### Lemmas: the `split_questions` fold -/

/-- Lines that do not match the heading pattern are only accumulated. -/
theorem foldl_qStep_noMatch {ls : List String}
    (h : ∀ l ∈ ls, isQuestionStart l = false) (qs cur : List String) :
    ls.foldl qStep (qs, cur) = (qs, cur ++ ls) := by
  induction ls generalizing cur with
  | nil => simp
  | cons a ls ih =>
    have ha : isQuestionStart a = false := h a (by simp)
    have h' : ∀ l ∈ ls, isQuestionStart l = false := fun l hl => h l (by simp [hl])
    rw [List.foldl_cons, show qStep (qs, cur) a = (qs, cur ++ [a]) by simp [qStep, ha],
        ih h']
    simp

/-- Folding a sequence of good blocks: each heading line flushes the
previous block, the final block stays pending and is flushed by
`finishQ`. -/
theorem foldl_qStep_chain : ∀ (blocks : List (List String)),
    (∀ B ∈ blocks, GoodBlock B) → (∀ B ∈ blocks, (fragOf B).length > 20) →
    ∀ (qs cur : List String), cur ≠ [] → (fragOf cur).length > 20 →
    finishQ (blocks.flatten.foldl qStep (qs, cur)) = qs ++ fragOf cur :: blocks.map fragOf
  | [], _, _, qs, cur, hcur, hfrag => by
    have hfrag' : (pyStrip (joinNL cur)).length > 20 := hfrag
    rw [List.flatten_nil, List.foldl_nil]
    simp [finishQ, List.isEmpty_eq_false.mpr hcur, hfrag', fragOf]
  | B :: rest, hb, hlen, qs, cur, hcur, hfrag => by
    obtain ⟨b, bs, hB, hbm, hbs⟩ := hb B (by simp)
    subst hB
    have hfrag' : (pyStrip (joinNL cur)).length > 20 := hfrag
    rw [List.flatten_cons, List.cons_append, List.foldl_cons]
    rw [show qStep (qs, cur) b = (qs ++ [fragOf cur], [b]) by
          simp [qStep, hbm, List.isEmpty_eq_false.mpr hcur, hfrag', fragOf]]
    rw [List.foldl_append, foldl_qStep_noMatch hbs]
    rw [show ([b] ++ bs : List String) = b :: bs by simp]
    rw [foldl_qStep_chain rest (fun x hx => hb x (by simp [hx]))
          (fun x hx => hlen x (by simp [hx])) (qs ++ [fragOf cur]) (b :: bs)
          (by simp) (hlen (b :: bs) (by simp))]
    simp

/-- Unfolding `split_questions`. -/
theorem split_questions_eq (text : String) : split_questions text =
    (if (finishQ ((splitLines text).foldl qStep ([], []))).isEmpty then [pyStrip text]
     else finishQ ((splitLines text).foldl qStep ([], []))) := rfl

/-- C4 (corrected): the source has a single heading heuristic, the
numeric `N.` / `N)` line-start regex; there is no `QN` or `Question N`
heuristic and no priority list.  For input text consisting of N
blocks, each led by a line matching that numeric pattern, with no
other matching line and every block's stripped fragment longer than 20
characters, `split_questions` returns exactly those N stripped
fragments, in order. -/
theorem C4_amended (blocks : List (List String)) (hne : blocks ≠ [])
    (hgood : ∀ B ∈ blocks, GoodBlock B)
    (hnl : ∀ B ∈ blocks, ∀ l ∈ B, '\n' ∉ l.data)
    (hlen : ∀ B ∈ blocks, (fragOf B).length > 20) :
    split_questions (joinNL blocks.flatten) = blocks.map fragOf ∧
    (split_questions (joinNL blocks.flatten)).length = blocks.length := by
  obtain ⟨B, rest, rfl⟩ : ∃ B rest, blocks = B :: rest := by
    cases blocks with
    | nil => exact absurd rfl hne
    | cons B rest => exact ⟨B, rest, rfl⟩
  obtain ⟨b, bs, hB, hbm, hbs⟩ := hgood B (by simp)
  subst hB
  have hnl' : ∀ s ∈ ((b :: bs) :: rest).flatten, '\n' ∉ s.data := by
    intro s hs
    rw [List.mem_flatten] at hs
    obtain ⟨B', hB', hsB'⟩ := hs
    exact hnl B' hB' s hsB'
  have hlines : splitLines (joinNL ((b :: bs) :: rest).flatten) = ((b :: bs) :: rest).flatten :=
    splitLines_joinNL _ (by simp) hnl'
  have hmain : split_questions (joinNL ((b :: bs) :: rest).flatten) =
      ((b :: bs) :: rest).map fragOf := by
    rw [split_questions_eq, hlines, List.flatten_cons, List.cons_append, List.foldl_cons]
    rw [show qStep ([], []) b = ([], [b]) by simp [qStep]]
    rw [List.foldl_append, foldl_qStep_noMatch hbs]
    rw [show (([] : List String), [b] ++ bs) = (([] : List String), b :: bs) by simp]
    rw [foldl_qStep_chain rest (fun x hx => hgood x (by simp [hx]))
          (fun x hx => hlen x (by simp [hx])) [] (b :: bs)
          (by simp) (hlen (b :: bs) (by simp))]
    simp
  exact ⟨hmain, by rw [hmain]; simp⟩

/-- C9 (corrected): when no line of the input matches the heading
pattern, `split_questions` returns the stripped input as the single
question (both when the stripped text is long enough to be collected
and when it falls under the 20-character threshold). -/
theorem C9_amended (text : String)
    (h : ∀ l ∈ splitLines text, isQuestionStart l = false) :
    split_questions text = [pyStrip text] := by
  rw [split_questions_eq, foldl_qStep_noMatch h]
  have hne := splitLines_ne_nil text
  by_cases hlen : (pyStrip (joinNL (splitLines text))).length > 20
  · simp [finishQ, List.isEmpty_eq_false.mpr hne, hlen, joinNL_splitLines]
  · simp [finishQ, List.isEmpty_eq_false.mpr hne, hlen, joinNL_splitLines]

/-- C4 counterexample: the claim's `QN`-style markers are not
recognised at all.  The input has two `Q<N>` question markers, each
fragment well above the length threshold, yet `split_questions`
returns the whole text as one fragment instead of two. -/
theorem C4_counterexample :
    split_questions "Q1 aaaaaaaaaaaaaaaaaaaaaaaaaa\nQ2 bbbbbbbbbbbbbbbbbbbbbbbbbb" =
      ["Q1 aaaaaaaaaaaaaaaaaaaaaaaaaa\nQ2 bbbbbbbbbbbbbbbbbbbbbbbbbb"] ∧
    (split_questions "Q1 aaaaaaaaaaaaaaaaaaaaaaaaaa\nQ2 bbbbbbbbbbbbbbbbbbbbbbbbbb").length ≠ 2 := by
  constructor
  · decide
  · decide

/-- C4 witness: two numeric-marker blocks split into exactly their two
stripped fragments. -/
theorem C4_witness :
    split_questions (joinNL ([["1. aaaaaaaaaaaaaaaaaaaaaaaa"],
        ["2. bbbbbbbbbbbbbbbbbbbbbbbbb"]] : List (List String)).flatten) =
      [fragOf ["1. aaaaaaaaaaaaaaaaaaaaaaaa"], fragOf ["2. bbbbbbbbbbbbbbbbbbbbbbbbb"]] :=
  (C4_amended [["1. aaaaaaaaaaaaaaaaaaaaaaaa"], ["2. bbbbbbbbbbbbbbbbbbbbbbbbb"]]
    (by simp)
    (by
      intro B hB
      simp only [List.mem_cons, List.not_mem_nil, or_false] at hB
      rcases hB with rfl | rfl
      · exact ⟨_, _, rfl, by decide, by simp⟩
      · exact ⟨_, _, rfl, by decide, by simp⟩)
    (by decide)
    (by decide)).1

/-- C9 counterexample: the heuristic yields exactly one qualifying
fragment (the short first line is dropped), so the hypothesis of the
claim holds, but the returned element is that fragment, not the
stripped input. -/
theorem C9_counterexample :
    split_questions "x\n1. aaaaaaaaaaaaaaaaaaaaaaaaaa" = ["1. aaaaaaaaaaaaaaaaaaaaaaaaaa"] ∧
    split_questions "x\n1. aaaaaaaaaaaaaaaaaaaaaaaaaa" ≠
      [pyStrip "x\n1. aaaaaaaaaaaaaaaaaaaaaaaaaa"] := by
  constructor
  · decide
  · decide

/-- C9 witness: a marker-free text is returned stripped, as the single
question. -/
theorem C9_witness :
    split_questions "  hello there everyone " = [pyStrip "  hello there everyone "] :=
  C9_amended "  hello there everyone " (by decide)

/-! ### Lemmas: the Document Assembler -/

/-- A per-question section contains no page break. -/
theorem countBreaks_sectionBlocks (item : QItem) : countBreaks (sectionBlocks item) = 0 := by
  rw [countBreaks, sectionBlocks]
  repeat rw [List.countP_append]
  have hmap : List.countP isPageBreak ((splitLines item.matlab_code).map
      (fun line => Block.paragraph [{ text := line, font := some "Consolas",
                                      size := some 10 }])) = 0 := by
    rw [List.countP_eq_zero]
    intro a ha
    rw [List.mem_map] at ha
    obtain ⟨l, _, rfl⟩ := ha
    simp [isPageBreak]
  rw [hmap]
  by_cases hg : item.graph_bytes ≠ [] <;> simp [hg, isPageBreak, List.countP_cons]

/-- The header contains no page break. -/
theorem countBreaks_headerBlocks (n r l : String) : countBreaks (headerBlocks n r l) = 0 := by
  rw [countBreaks, headerBlocks]
  repeat rw [List.countP_append]
  by_cases h1 : n ≠ "" <;> by_cases h2 : r ≠ "" <;> by_cases h3 : l ≠ "" <;>
    simp [h1, h2, h3, isPageBreak, List.countP_cons]

/-- C5 (corrected): the page-break condition is Python value equality
`item != questions_data[-1]`, so the `N-1` count is guaranteed only
when no earlier tuple equals the last tuple (as in the real pipeline,
where `question_num` makes all tuples distinct).  Under that
hypothesis the document is the header, then the sections in input
order each followed by a page break, then the last section with no
break after it — hence exactly `N-1` page breaks. -/
theorem C5_amended (qs : List QItem) (L : QItem) (h : ∀ x ∈ qs, x ≠ L) (n r l : String) :
    assemble_document (qs ++ [L]) n r l =
      headerBlocks n r l ++
        ((qs.map fun i => sectionBlocks i ++ [Block.pageBreak]).flatten ++ sectionBlocks L) ∧
    countBreaks (assemble_document (qs ++ [L]) n r l) = qs.length := by
  have hlast : (qs ++ [L]).getLast? = some L := List.getLast?_concat _
  have hmap : (qs ++ [L]).map (fun item => sectionBlocks item ++
      (if (qs ++ [L]).getLast? = some item then [] else [Block.pageBreak])) =
      (qs.map fun i => sectionBlocks i ++ [Block.pageBreak]) ++ [sectionBlocks L] := by
    rw [List.map_append]
    congr 1
    · apply List.map_congr_left
      intro x hx
      rw [hlast]
      have hx' : ¬(some L = some x) := by
        simp only [Option.some.injEq]
        exact fun hLx => (h x hx) hLx.symm
      rw [if_neg hx']
    · simp [hlast]
  have hmain : assemble_document (qs ++ [L]) n r l = headerBlocks n r l ++
      ((qs.map fun i => sectionBlocks i ++ [Block.pageBreak]).flatten ++ sectionBlocks L) := by
    rw [assemble_document, hmap, List.flatten_append]
    simp
  refine ⟨hmain, ?_⟩
  rw [hmain, countBreaks, List.countP_append, List.countP_append]
  have h1 : List.countP isPageBreak (headerBlocks n r l) = 0 := countBreaks_headerBlocks n r l
  have h2 : List.countP isPageBreak (sectionBlocks L) = 0 := countBreaks_sectionBlocks L
  rw [h1, h2, List.countP_flatten, List.map_map]
  have hone : ∀ x ∈ qs,
      (List.countP isPageBreak ∘ fun i => sectionBlocks i ++ [Block.pageBreak]) x = 1 := by
    intro x _
    have hx0 : List.countP isPageBreak (sectionBlocks x) = 0 := countBreaks_sectionBlocks x
    simp [Function.comp, List.countP_append, hx0, List.countP_cons, isPageBreak]
  rw [List.map_congr_left hone]
  simp

/-- C2 (corrected): every tuple's section — the numbered red question
text, the Consolas code lines, the "Output:" label and, when the graph
bytes are non-empty, the picture at width 5 — appears contiguously in
the assembled document; the conclusion field, however, is never
emitted (see the counterexample). -/
theorem C2_amended (data : List QItem) (n r l : String) (item : QItem) (h : item ∈ data) :
    sectionBlocks item <:+: assemble_document data n r l := by
  have h1 : sectionBlocks item <+: sectionBlocks item ++
      (if data.getLast? = some item then [] else [Block.pageBreak]) :=
    List.prefix_append _ _
  have h2 : sectionBlocks item ++
      (if data.getLast? = some item then [] else [Block.pageBreak]) ∈
      data.map (fun it => sectionBlocks it ++
        (if data.getLast? = some it then [] else [Block.pageBreak])) :=
    List.mem_map_of_mem _ h
  have h3 := List.infix_of_mem_flatten h2
  exact (h1.isInfix.trans h3).trans (List.suffix_append _ _).isInfix

set_option maxRecDepth 4000 in
/-- C2 counterexample: the assembled document for `c2Item` contains no
run carrying the conclusion text (not even as a substring) and embeds
no figure — the claim's "conclusion text" and "embedded figure" parts
fail. -/
theorem C2_counterexample :
    ((docRunTexts (assemble_document [c2Item] "" "" "")).all
      fun t => !containsSub "ZZZCONCLUSION".data t.data) = true ∧
    hasPicture (assemble_document [c2Item] "" "" "") = false := by
  constructor
  · decide
  · decide

/-- C2 witness: the section of a concrete tuple is an infix of the
assembled document. -/
theorem C2_witness : sectionBlocks c2Item <:+: assemble_document [c2Item] "" "" "" :=
  C2_amended [c2Item] "" "" "" c2Item (by simp)

/-- C5 counterexample: two identical tuples produce zero page breaks,
not `N - 1 = 1`, because every item equals the last one under Python
value equality. -/
theorem C5_counterexample :
    ¬ countBreaks (assemble_document [c5Item, c5Item] "" "" "") =
        ([c5Item, c5Item] : List QItem).length - 1 := by
  decide

/-- C5 witness: three pairwise-distinct tuples yield exactly two page
breaks. -/
theorem C5_witness :
    countBreaks (assemble_document ([c5A, c5B] ++ [c5C]) "Alice" "21BEC0001" "3") = 2 :=
  (C5_amended [c5A, c5B] c5C (by decide) "Alice" "21BEC0001" "3").2

/-! ### Claims about the Figure Renderer -/

/-- C3 (corrected): `generate_graph` is insensitive to the plotting
state it starts from (figures are closed and the style reset before
any rendering, so nothing bleeds in), and figures are closed after the
call on the short-input path and on the error path.  On the successful
execution path, however, the snippet's figures are left open (see the
counterexample) — the claim's "after every call" is wrong there. -/
theorem C3_amended :
    (∀ (code : String) (sem : SnippetSem) (s₁ s₂ : PltState),
      generate_graph code sem s₁ = generate_graph code sem s₂) ∧
    (∀ (code : String) (sem : SnippetSem) (s : PltState),
      (code = "" ∨ (pyStrip code).length < 20) →
      (generate_graph code sem s).2.figures = []) ∧
    (∀ (code : String) (sem : SnippetSem) (s : PltState) (e : String) (sErr : PltState),
      ¬(code = "" ∨ (pyStrip code).length < 20) →
      sem code freshMatlabState [] = .error (e, sErr) →
      (generate_graph code sem s).2.figures = []) := by
  refine ⟨fun code sem s₁ s₂ => rfl, fun code sem s h => ?_, fun code sem s e sErr h hsem => ?_⟩
  · rw [generate_graph, if_pos h]
    rfl
  · rw [generate_graph, if_neg h]
    rw [show closeAll (configure_matlab_style s) = freshMatlabState from rfl, hsem]
    rfl

/-- C3 counterexample: after a successful render the snippet's figure
is still open — `generate_graph` does not close figures on the
success path, refuting "after every call ... all open plotting
figures are closed". -/
theorem C3_counterexample :
    (generate_graph "plt.plot(x); plt.savefig(buffer)" semLeavesFigure s0).2.figures ≠ [] := by
  decide

/-- C3 witness: the error path at a concrete failing snippet leaves no
open figure. -/
theorem C3_witness :
    (generate_graph "plt.plot(undefined_name_x)"
      (fun _ s _ => .error ("name undefined_name_x is not defined", s)) s0).2.figures = [] :=
  C3_amended.2.2 "plt.plot(undefined_name_x)"
    (fun _ s _ => .error ("name undefined_name_x is not defined", s)) s0
    "name undefined_name_x is not defined" freshMatlabState
    (by decide) rfl

/-- C6 (confirmed): a raising snippet yields the fixed placeholder
image — non-empty PNG bytes encoding the error text truncated to 120
characters — and `generate_graph` returns normally (it is a total
function; no exception propagates); afterwards no figure is open. -/
theorem C6_confirmed (code : String) (sem : SnippetSem) (s : PltState)
    (e : String) (sErr : PltState)
    (hlong : ¬(code = "" ∨ (pyStrip code).length < 20))
    (hsem : sem code freshMatlabState [] = .error (e, sErr)) :
    (generate_graph code sem s).1 = pngEncode ["Graph Error:\n" ++ pyTake e 120] ∧
    (generate_graph code sem s).1 ≠ [] ∧
    (generate_graph code sem s).2.figures = [] := by
  rw [generate_graph, if_neg hlong,
      show closeAll (configure_matlab_style s) = freshMatlabState from rfl, hsem]
  exact ⟨rfl, by simp [pngEncode], rfl⟩

/-- C6 witness: a concrete raising snippet produces exactly the
truncated-error placeholder bytes. -/
theorem C6_witness :
    (generate_graph "plt.plot(undefined_name_y); plt.savefig(buffer)"
      (fun _ s _ => .error ("name undefined_name_y is not defined", s)) s0).1 =
      pngEncode ["Graph Error:\n" ++ pyTake "name undefined_name_y is not defined" 120] :=
  (C6_confirmed "plt.plot(undefined_name_y); plt.savefig(buffer)"
    (fun _ s _ => .error ("name undefined_name_y is not defined", s)) s0
    "name undefined_name_y is not defined" freshMatlabState
    (by decide) rfl).1

/-- C8 (confirmed): a long-enough snippet that succeeds without ever
writing to the buffer still yields non-empty PNG bytes: the renderer
captures the current figure (`plt.savefig` on the figure state the
snippet left, or on a fresh empty figure when none is open). -/
theorem C8_confirmed (code : String) (sem : SnippetSem) (s s' : PltState)
    (hlong : ¬(code = "" ∨ (pyStrip code).length < 20))
    (hsem : sem code freshMatlabState [] = .ok (s', [])) :
    (generate_graph code sem s).1 = pngEncode ((s'.figures.getLast?).getD []) ∧
    (generate_graph code sem s).1 ≠ [] := by
  rw [generate_graph, if_neg hlong,
      show closeAll (configure_matlab_style s) = freshMatlabState from rfl, hsem]
  cases hl : s'.figures.getLast? with
  | none => exact ⟨by simp [hl], by simp [hl, pngEncode]⟩
  | some fig => exact ⟨by simp [hl], by simp [hl, pngEncode]⟩

/-- C8 witness: a snippet that only plots (never touching the buffer)
still produces the PNG of its figure. -/
theorem C8_witness :
    (generate_graph "plt.plot(n, x); plt.title(sig)"
      (fun _ s _ => .ok ({ s with figures := s.figures ++ [["step"]] }, [])) s0).1 =
      pngEncode (([["step"]] : List (List String)).getLast?.getD []) :=
  (C8_confirmed "plt.plot(n, x); plt.title(sig)"
    (fun _ s _ => .ok ({ s with figures := s.figures ++ [["step"]] }, [])) s0
    { figures := [["step"]], rc := matlabRc }
    (by decide) rfl).1

/-! ### Claims about `call_gemini_single` and the `/generate` route -/

/-- C1 (corrected): with the credential present, any failure of the
backend call is caught per question and converted into a
`SolutionRecord` carrying the truncated error message, and a batch of
N questions always yields N records.  (The missing-credential case,
by contrast, raises past the per-question boundary — see the
counterexample.) -/
theorem C1_amended (c : Collab) (k : String) (hk : c.apiKey = some k) :
    (∀ (q : String) (n : Nat) (e : String),
      c.aiResponse ("Question " ++ toString n ++ ": " ++ pyTake q 1500) = .error e →
      call_gemini_single c q n =
        .ok ⟨"% Error: " ++ pyTake e 100, "", "Error processing question: " ++ pyTake e 50⟩) ∧
    (∀ (qs : List String) (i : Nat) (s : PltState),
      ∃ items s', processQuestions c qs i s = .ok (items, s') ∧ items.length = qs.length) := by
  constructor
  · intro q n e he
    rw [call_gemini_single, hk, he]
  · intro qs
    induction qs with
    | nil => exact fun i s => ⟨[], s, rfl, rfl⟩
    | cons q rest ih =>
      intro i s
      have hok : ∃ r, call_gemini_single c q i = .ok r := by
        rw [call_gemini_single, hk]
        cases c.aiResponse ("Question " ++ toString i ++ ": " ++ pyTake q 1500) with
        | error e => exact ⟨_, rfl⟩
        | ok raw => exact ⟨_, rfl⟩
      obtain ⟨r, hr⟩ := hok
      rcases hgg : generate_graph r.python_plotting_code c.snippet s with ⟨gb, s1⟩
      obtain ⟨items, s'', hrec, hlen⟩ := ih (i + 1) s1
      refine ⟨⟨i, q, r.matlab_code, gb, r.conclusion⟩ :: items, s'', ?_, by simp [hlen]⟩
      simp only [processQuestions, hr, hgg, hrec]

/-- C1 counterexample: with the credential absent, a request with one
question aborts the whole batch with a 500 carrying the raised
message — no `SolutionRecord` is produced, refuting "it never raises
past the per-question boundary". -/
theorem C1_counterexample :
    generate cNoKey reqText s0 =
      (.err 500 "GEMINI_API_KEY environment variable not set", s0) := by
  decide

/-- C1 witness: a two-question batch under a configured credential
yields exactly two records. -/
theorem C1_witness :
    ∃ items s', processQuestions cW
      ["differentiate the unit ramp", "integrate the unit step"] 1 s0 =
        .ok (items, s') ∧ items.length = 2 :=
  (C1_amended cW "test-key" rfl).2
    ["differentiate the unit ramp", "integrate the unit step"] 1 s0

/-- C7 (confirmed): a request with neither `question_text` nor
`file_data` is rejected with the 400 "No question text provided"
response, the plotting state untouched; this holds for every
collaborator bundle, so in particular the AI backend is never
consulted. -/
theorem C7_confirmed (c : Collab) (ft nm rl lb : Option String) (s : PltState) :
    generate c ⟨none, none, ft, nm, rl, lb⟩ s = (.err 400 "No question text provided", s) :=
  rfl

/-- Function `call_gemini_single` only reads the credential, the backend and
the JSON parser from the collaborator bundle. -/
theorem call_gemini_single_collab_eq (c c' : Collab)
    (h1 : c.apiKey = c'.apiKey) (h2 : c.aiResponse = c'.aiResponse)
    (h3 : c.jsonParse = c'.jsonParse) (q : String) (i : Nat) :
    call_gemini_single c q i = call_gemini_single c' q i := by
  rw [call_gemini_single, call_gemini_single, h1, h2, h3]

/-- Function `processQuestions` only reads the credential, the backend, the
JSON parser and the snippet semantics from the collaborator bundle. -/
theorem processQuestions_collab_eq (c c' : Collab)
    (h1 : c.apiKey = c'.apiKey) (h2 : c.aiResponse = c'.aiResponse)
    (h3 : c.jsonParse = c'.jsonParse) (h4 : c.snippet = c'.snippet) :
    ∀ (qs : List String) (i : Nat) (s : PltState),
      processQuestions c qs i s = processQuestions c' qs i s := by
  intro qs
  induction qs with
  | nil => intro i s; rfl
  | cons q rest ih =>
    intro i s
    simp only [processQuestions, call_gemini_single_collab_eq c c' h1 h2 h3 q i, h4, ih]

/-- C10 (confirmed): when `question_text` is a non-empty string, the
extraction step is skipped entirely: the response is independent of
`file_data` and `file_type` and of the decoder and both extractors. -/
theorem C10_confirmed (c : Collab) (s : PltState) (t : String) (h : t ≠ "")
    (fd₁ fd₂ ft₁ ft₂ nm rl lb : Option String)
    (pdfX docxX : List Nat → Except String String)
    (b64 : String → Except String (List Nat)) :
    generate c ⟨some t, fd₁, ft₁, nm, rl, lb⟩ s =
      generate { c with b64decode := b64, extract_text_from_pdf := pdfX,
                        extract_text_from_docx := docxX } ⟨some t, fd₂, ft₂, nm, rl, lb⟩ s := by
  have hpq : ∀ (qs : List String) (i : Nat) (s' : PltState),
      processQuestions c qs i s' =
        processQuestions { c with b64decode := b64, extract_text_from_pdf := pdfX,
                                  extract_text_from_docx := docxX } qs i s' :=
    processQuestions_collab_eq _ _ rfl rfl rfl rfl
  cases fd₁ <;> cases fd₂ <;> simp [generate, h, hpq]

/-- C10 witness: concrete file payloads and broken extractors do not
change the response when question text is supplied. -/
theorem C10_witness :
    generate cW ⟨some "sketch the signal", some "Zm9vYmFy", some "pdf",
        none, none, none⟩ s0 =
      generate { cW with b64decode := fun _ => .error "boom",
                         extract_text_from_pdf := fun _ => .error "boom",
                         extract_text_from_docx := fun _ => .error "boom" }
        ⟨some "sketch the signal", none, some "docx", none, none, none⟩ s0 :=
  C10_confirmed cW s0 "sketch the signal" (by decide) (some "Zm9vYmFy") none
    (some "pdf") (some "docx") none none none
    (fun _ => .error "boom") (fun _ => .error "boom") (fun _ => .error "boom")
